import Mathlib

/-!
Shallow embedding of the ID3v2.3 tag codec of `mp3TagEdit`
(`src/id3v23tag.py`, with `FrameComments.decode_comments` from
`src/id3v23frames.py`), together with theorems settling the frozen
claims about it.

Bytes and decoded strings are lists of natural numbers (byte values,
respectively Unicode code points).  Python exceptions are modelled with
`Except PyErr`; a Python function that returns `None` to signal "no
value" is modelled with `Option` inside the `Except`.
-/

namespace Mp3TagEdit

/-- The Python exceptions the embedded code can raise. -/
inductive PyErr where
  | attributeError
  | indexError
  | unicodeDecodeError
  | unicodeEncodeError
  | overflowError
  | lookupError
  deriving DecidableEq, Repr

instance {ε α : Type} [DecidableEq ε] [DecidableEq α] : DecidableEq (Except ε α) :=
  fun a b =>
    match a, b with
    | Except.ok x, Except.ok y =>
        if h : x = y then isTrue (by rw [h]) else isFalse (by simp [h])
    | Except.error x, Except.error y =>
        if h : x = y then isTrue (by rw [h]) else isFalse (by simp [h])
    | Except.ok _, Except.error _ => isFalse (by simp)
    | Except.error _, Except.ok _ => isFalse (by simp)

/-- Code points of a Lean string literal, used to write the frame ids the
source writes as string literals (`'COMM'`, `'ID3'`, ...). -/
def strCps (s : String) : List Nat := s.data.map Char.toNat

/-- `l[i]` on a Python sequence: the element, or `IndexError` when `i` is out
of range (the source only indexes with non-negative literals). -/
def pyIdx (l : List Nat) (i : Nat) : Except PyErr Nat :=
  match l.get? i with
  | some v => Except.ok v
  | none => Except.error PyErr.indexError

/-- One bound of a Python slice `l[a:b]` normalised to an index into `l`:
a negative bound counts from the end (clamped at 0), a non-negative bound is
clamped at the length. -/
def slIdx (x : Int) (n : Nat) : Nat :=
  if x < 0 then (x + n).toNat else min x.toNat n

/-- Python's slice `l[a:b]` (step 1), with Python's treatment of negative and
out-of-range bounds. -/
def pySlice (l : List α) (a b : Int) : List α :=
  (l.take (slIdx b l.length)).drop (slIdx a l.length)

/-- Does `l` start with `p`? (helper for `bytes.find`). -/
def listStartsWith : List Nat → List Nat → Bool
  | _, [] => true
  | [], _ :: _ => false
  | a :: l, b :: p => a = b && listStartsWith l p

def pyFindAux : List Nat → List Nat → Nat → Option Nat
  | l, p, i =>
    if listStartsWith l p then some i
    else
      match l with
      | [] => none
      | _ :: rest => pyFindAux rest p (i + 1)

/-- Python's `bytes.find(pattern)`: index of the first occurrence of
`pattern` as a contiguous sub-sequence, `-1` when there is none. -/
def pyFind (l p : List Nat) : Int :=
  match pyFindAux l p 0 with
  | some i => (i : Int)
  | none => -1

/-! ### Text codecs (Python's `iso8859_1`, `utf_16` and default `utf-8`) -/

/-- `bytes.decode('iso8859_1')`: every byte is its own code point. -/
def latin1Decode (bs : List Nat) : List Nat := bs

/-- `str.encode('iso8859_1')`: identity on code points below 256, otherwise
`UnicodeEncodeError`. -/
def latin1Encode (cs : List Nat) : Except PyErr (List Nat) :=
  if cs.all (· < 256) then Except.ok cs else Except.error PyErr.unicodeEncodeError

/-- Strict UTF-8 decoding, as Python's `bytes.decode()` performs it
(continuation bytes checked, overlong forms and surrogates rejected). -/
def utf8Decode : List Nat → Option (List Nat)
  | [] => some []
  | b :: rest =>
    if b < 0x80 then (utf8Decode rest).map (b :: ·)
    else if b < 0xC2 then none
    else if b < 0xE0 then
      match rest with
      | c1 :: r =>
        if 0x80 ≤ c1 ∧ c1 < 0xC0 then
          (utf8Decode r).map (((b - 0xC0) * 64 + (c1 - 0x80)) :: ·)
        else none
      | [] => none
    else if b < 0xF0 then
      match rest with
      | c1 :: c2 :: r =>
        if 0x80 ≤ c1 ∧ c1 < 0xC0 ∧ 0x80 ≤ c2 ∧ c2 < 0xC0 then
          let cp := (b - 0xE0) * 4096 + (c1 - 0x80) * 64 + (c2 - 0x80)
          if cp < 0x800 ∨ (0xD800 ≤ cp ∧ cp < 0xE000) then none
          else (utf8Decode r).map (cp :: ·)
        else none
      | _ => none
    else if b < 0xF5 then
      match rest with
      | c1 :: c2 :: c3 :: r =>
        if 0x80 ≤ c1 ∧ c1 < 0xC0 ∧ 0x80 ≤ c2 ∧ c2 < 0xC0 ∧ 0x80 ≤ c3 ∧ c3 < 0xC0 then
          let cp := (b - 0xF0) * 262144 + (c1 - 0x80) * 4096 + (c2 - 0x80) * 64 + (c3 - 0x80)
          if cp < 0x10000 ∨ 0x10FFFF < cp then none
          else (utf8Decode r).map (cp :: ·)
        else none
      | _ => none
    else none

/-- Little-endian UTF-16 byte pairs to code units; `none` on odd length
(Python raises `UnicodeDecodeError` there). -/
def utf16Units : List Nat → Option (List Nat)
  | [] => some []
  | [_] => none
  | a :: b :: r => (utf16Units r).map ((a + 256 * b) :: ·)

/-- Big-endian UTF-16 byte pairs to code units. -/
def utf16UnitsBE : List Nat → Option (List Nat)
  | [] => some []
  | [_] => none
  | a :: b :: r => (utf16UnitsBE r).map ((256 * a + b) :: ·)

/-- Combine UTF-16 code units into code points, pairing surrogates; `none`
on a lone surrogate (Python raises `UnicodeDecodeError` there). -/
def utf16Combine : List Nat → Option (List Nat)
  | [] => some []
  | u :: r =>
    if 0xD800 ≤ u ∧ u < 0xDC00 then
      match r with
      | v :: r2 =>
        if 0xDC00 ≤ v ∧ v < 0xE000 then
          (utf16Combine r2).map ((0x10000 + (u - 0xD800) * 1024 + (v - 0xDC00)) :: ·)
        else none
      | [] => none
    else if 0xDC00 ≤ u ∧ u < 0xE000 then none
    else (utf16Combine r).map (u :: ·)

/-- `bytes.decode('utf_16')`: honour a byte-order mark, default to
little-endian without one (CPython's behaviour on the development platform). -/
def utf16Decode (bs : List Nat) : Option (List Nat) :=
  match bs with
  | a :: b :: r =>
    if a = 255 ∧ b = 254 then (utf16Units r).bind utf16Combine
    else if a = 254 ∧ b = 255 then (utf16UnitsBE r).bind utf16Combine
    else (utf16Units (a :: b :: r)).bind utf16Combine
  | l => (utf16Units l).bind utf16Combine

/-- Little-endian UTF-16 code units (with surrogate pairs) of one code point;
`UnicodeEncodeError` on a lone surrogate or an out-of-range value. -/
def utf16EncodeChar (c : Nat) : Except PyErr (List Nat) :=
  if c < 0xD800 then Except.ok [c % 256, c / 256]
  else if c < 0xE000 then Except.error PyErr.unicodeEncodeError
  else if c < 0x10000 then Except.ok [c % 256, c / 256]
  else if c < 0x110000 then
    let v := c - 0x10000
    let hi := 0xD800 + v / 1024
    let lo := 0xDC00 + v % 1024
    Except.ok [hi % 256, hi / 256, lo % 256, lo / 256]
  else Except.error PyErr.unicodeEncodeError

def utf16EncodeBody : List Nat → Except PyErr (List Nat)
  | [] => Except.ok []
  | c :: r =>
    match utf16EncodeChar c with
    | Except.error e => Except.error e
    | Except.ok b =>
      match utf16EncodeBody r with
      | Except.error e => Except.error e
      | Except.ok rest => Except.ok (b ++ rest)

/-- `str.encode('utf_16')`: a little-endian byte-order mark followed by the
little-endian code units. -/
def utf16Encode (cs : List Nat) : Except PyErr (List Nat) :=
  (utf16EncodeBody cs).map ([255, 254] ++ ·)

/-! ### Synchsafe tag-size codec (`ID3V2Tag.decode_tagsize` / `encode_tagsize`) -/

/-- `ID3V2Tag.decode_tagsize`: `size += int(sizebytes[i]) * 256**(3-i) >> (3-i)`
for `i` in 0..4.  The source never masks bit 7 of a byte. -/
def decode_tagsize (sizebytes : List Nat) : Nat :=
  ((sizebytes.getD 0 0 * 256 ^ 3) >>> 3) + ((sizebytes.getD 1 0 * 256 ^ 2) >>> 2) +
    ((sizebytes.getD 2 0 * 256 ^ 1) >>> 1) + ((sizebytes.getD 3 0 * 256 ^ 0) >>> 0)

/-- `ID3V2Tag.encode_tagsize`: byte `i` is `(size >> 7*(3-i)) & 0x7F`. -/
def encode_tagsize (size : Nat) : List Nat :=
  [(size >>> 21) &&& 0x7F, (size >>> 14) &&& 0x7F, (size >>> 7) &&& 0x7F, (size >>> 0) &&& 0x7F]

/-! ### Frame headers (`ID3V2FrameHeader`) -/

structure FrameHeader where
  frameid : List Nat
  framesize : Nat
  flags : List Nat
  deriving DecidableEq, Repr

/-- The plain big-endian 32-bit size loop of `ID3V2FrameHeader.read`:
`size += int(framesizebytes[i]) * 256**(3-i)`. -/
def beDecode4 (l : List Nat) : Nat :=
  l.getD 0 0 * 256 ^ 3 + l.getD 1 0 * 256 ^ 2 + l.getD 2 0 * 256 ^ 1 + l.getD 3 0 * 256 ^ 0

/-- `int.to_bytes(4, byteorder='big')`: `OverflowError` when the value does
not fit four bytes. -/
def toBytesBE4 (n : Nat) : Except PyErr (List Nat) :=
  if n < 2 ^ 32 then Except.ok [n / 2 ^ 24 % 256, n / 2 ^ 16 % 256, n / 2 ^ 8 % 256, n % 256]
  else Except.error PyErr.overflowError

/-- `ID3V2FrameHeader.read`: `None` when fewer than 10 bytes are available,
otherwise the frame id (UTF-8 decoded, `UnicodeDecodeError` propagates), the
plain big-endian size and the two raw flag bytes. -/
def frameHeaderRead (bs : List Nat) : Except PyErr (Option FrameHeader) :=
  let byteheader := pySlice bs 0 10
  if byteheader.length = 10 then
    match utf8Decode (pySlice byteheader 0 4) with
    | none => Except.error PyErr.unicodeDecodeError
    | some fid =>
        Except.ok (some { frameid := fid
                          framesize := beDecode4 (pySlice byteheader 4 8)
                          flags := pySlice byteheader 8 10 })
  else Except.ok none

/-! ### Frame variants (`FrameTextInfo`, `FrameComments`) -/

/-- The `self.encoding` attribute: the source stores the codec name as a
string (`'iso8859_1'`, `'utf_16'` or `'unknown'`). -/
inductive PyEncoding where
  | iso8859_1
  | utf_16
  | unknown
  deriving DecidableEq, Repr

structure FrameTextInfo where
  id : List Nat
  flags : List Nat
  size : Nat
  data : List Nat
  encoding : PyEncoding
  deriving DecidableEq, Repr

structure FrameComments where
  id : List Nat
  flags : List Nat
  size : Nat
  data : List Nat
  language : List Nat
  content_descr : List Nat
  encoding : PyEncoding
  deriving DecidableEq, Repr

inductive Frame where
  | text (f : FrameTextInfo)
  | comm (f : FrameComments)
  deriving DecidableEq, Repr

def Frame.id : Frame → List Nat
  | .text f => f.id
  | .comm f => f.id

def Frame.size : Frame → Nat
  | .text f => f.size
  | .comm f => f.size

/-- `FrameTextInfo.read`: re-reads the 10-byte header (dereferencing the
`None` of a truncated header — `AttributeError`), takes the declared body,
and decodes it according to its first byte: 0 → Latin-1 on the rest,
1 → UTF-16 on the rest, anything else → UTF-8 on the *whole* body with the
encoding recorded as `'unknown'`.  `frame_body[0]` on an empty body raises
`IndexError`. -/
def frameTextInfoRead (bs : List Nat) : Except PyErr FrameTextInfo :=
  match frameHeaderRead bs with
  | Except.error e => Except.error e
  | Except.ok none => Except.error PyErr.attributeError
  | Except.ok (some h) =>
    let frame_body := pySlice bs 10 (10 + (h.framesize : Int))
    match frame_body with
    | [] => Except.error PyErr.indexError
    | eb :: _ =>
      if eb = 0 then
        Except.ok { id := h.frameid, flags := h.flags, size := h.framesize
                    data := latin1Decode (pySlice frame_body 1 frame_body.length)
                    encoding := .iso8859_1 }
      else if eb = 1 then
        match utf16Decode (pySlice frame_body 1 frame_body.length) with
        | none => Except.error PyErr.unicodeDecodeError
        | some s =>
            Except.ok { id := h.frameid, flags := h.flags, size := h.framesize
                        data := s, encoding := .utf_16 }
      else
        match utf8Decode frame_body with
        | none => Except.error PyErr.unicodeDecodeError
        | some s =>
            Except.ok { id := h.frameid, flags := h.flags, size := h.framesize
                        data := s, encoding := .unknown }

/-- `FrameComments.read` (`src/id3v23tag.py`): the language is
`frame_body[1:4]` UTF-8 decoded before the encoding byte is examined; the
terminator search `frame_body.find(...)` runs over the *whole* body
(encoding byte and language included) and yields `-1` when absent, which the
source feeds straight into the slices; an encoding byte other than 0 or 1
returns `None`. -/
def frameCommentsRead (bs : List Nat) : Except PyErr (Option FrameComments) :=
  match frameHeaderRead bs with
  | Except.error e => Except.error e
  | Except.ok none => Except.error PyErr.attributeError
  | Except.ok (some h) =>
    let frame_body := pySlice bs 10 ((h.framesize : Int) + 10)
    match utf8Decode (pySlice frame_body 1 4) with
    | none => Except.error PyErr.unicodeDecodeError
    | some lang =>
      match frame_body with
      | [] => Except.error PyErr.indexError
      | eb :: _ =>
        if eb = 0 then
          let text_len : Int := pyFind frame_body [0] - 4
          Except.ok (some { id := h.frameid, flags := h.flags, size := h.framesize
                            language := lang
                            content_descr := latin1Decode (pySlice frame_body 4 (text_len + 4))
                            data := latin1Decode (pySlice frame_body (text_len + 5) frame_body.length)
                            encoding := .iso8859_1 })
        else if eb = 1 then
          let text_len : Int := pyFind frame_body [0, 0] - 4
          match utf16Decode (pySlice frame_body 4 (text_len + 4)) with
          | none => Except.error PyErr.unicodeDecodeError
          | some cd =>
            match utf16Decode (pySlice frame_body (text_len + 6) frame_body.length) with
            | none => Except.error PyErr.unicodeDecodeError
            | some d =>
                Except.ok (some { id := h.frameid, flags := h.flags, size := h.framesize
                                  language := lang, content_descr := cd, data := d
                                  encoding := .utf_16 })
        else Except.ok none

/-- `ID3V2Frame.read`, the frame dispatcher: a frame id starting with `'T'`
goes to `FrameTextInfo.read`, exactly `"COMM"` goes to `FrameComments.read`,
and *everything else yields `None`* (the generic branch is commented out in
the source).  A truncated header makes `frame_header.frameid` dereference
`None`: `AttributeError`. -/
def frameRead (bs : List Nat) : Except PyErr (Option Frame) :=
  match frameHeaderRead bs with
  | Except.error e => Except.error e
  | Except.ok none => Except.error PyErr.attributeError
  | Except.ok (some h) =>
    if h.frameid.getD 0 0 = 84 then
      match frameTextInfoRead bs with
      | Except.error e => Except.error e
      | Except.ok f => Except.ok (some (Frame.text f))
    else if h.frameid = strCps "COMM" then
      match frameCommentsRead bs with
      | Except.error e => Except.error e
      | Except.ok f? => Except.ok (f?.map Frame.comm)
    else Except.ok none

/-! ### The tag container (`ID3V2Tag`) -/

/-- `ID3V2Tag` (`self.id` is the constant `'ID3'` set by `__init__` and never
changed, so it is not a field here).  `frames` is the `dict` keyed by frame
id, in insertion order. -/
structure Tag where
  version : List Nat
  tagsize : Nat
  unsynchronisation : Bool
  extended_header : Bool
  experimental_indicator : Bool
  frames : List (List Nat × Frame)
  deriving DecidableEq, Repr

/-- `frames[fr.id] = fr` on a Python `dict`: replace in place when the key is
present, append otherwise. -/
def dictInsert (l : List (List Nat × Frame)) (k : List Nat) (v : Frame) :
    List (List Nat × Frame) :=
  match l with
  | [] => [(k, v)]
  | (k0, v0) :: r => if k0 = k then (k, v) :: r else (k0, v0) :: dictInsert r k v

/-- The frame-scan loop of `ID3V2Tag.read`: while `read_position < tagsize + 10`,
read a frame at the current position; insert it and advance by
`fr.size + 10` on success, stop on `None`.  `fuel` only bounds the recursion;
`tagRead` passes `tagsize + 10`, which the loop can never exhaust because
every iteration needs `pos < bound` and advances `pos` by at least 10. -/
def tagReadLoop (tag : List Nat) (bound : Nat) :
    Nat → Nat → List (List Nat × Frame) → Except PyErr (List (List Nat × Frame))
  | 0, _, frames => Except.ok frames
  | fuel + 1, pos, frames =>
    if pos < bound then
      match frameRead (pySlice tag pos tag.length) with
      | Except.error e => Except.error e
      | Except.ok (some fr) =>
          tagReadLoop tag bound fuel (pos + fr.size + 10) (dictInsert frames fr.id fr)
      | Except.ok none => Except.ok frames
    else Except.ok frames

/-- `ID3V2Tag.read`: `None` (caught `UnicodeDecodeError` included) for a bad
magic, `None` for a major version other than 3, then flags bits 7/6/5, the
synchsafe size from `tag_header[6:]` (whose four indexings raise `IndexError`
on a short header), and the frame scan over `bytestring[:tagsize + 10]`. -/
def tagRead (bs : List Nat) : Except PyErr (Option Tag) :=
  let tag_header := pySlice bs 0 10
  match utf8Decode (pySlice tag_header 0 3) with
  | none => Except.ok none
  | some tid =>
    if tid ≠ strCps "ID3" then Except.ok none
    else
      match pyIdx tag_header 3 with
      | Except.error e => Except.error e
      | Except.ok major =>
        if major ≠ 3 then Except.ok none
        else
          match pyIdx tag_header 5 with
          | Except.error e => Except.error e
          | Except.ok flagsByte =>
            if tag_header.length < 10 then Except.error PyErr.indexError
            else
              let tagsize := decode_tagsize (pySlice tag_header 6 tag_header.length)
              match tagReadLoop (pySlice bs 0 ((tagsize : Int) + 10)) (tagsize + 10)
                  (tagsize + 10) 10 [] with
              | Except.error e => Except.error e
              | Except.ok frames =>
                  Except.ok (some { version := pySlice tag_header 3 5
                                    tagsize := tagsize
                                    unsynchronisation := flagsByte &&& 0x80 ≠ 0
                                    extended_header := flagsByte &&& 0x40 ≠ 0
                                    experimental_indicator := flagsByte &&& 0x20 ≠ 0
                                    frames := frames })

/-! ### Encoding (`FrameTextInfo.encode`, `FrameComments.encode`,
`ID3V2Tag.encode`) and `set_value` -/

/-- `FrameTextInfo.encode`: latin-1 frame id, 4-byte big-endian size, flags,
then the encoding byte and the encoded text — the source tests
`'iso8859_1'` and `'utf_16'` with two separate `if`s, so an `'unknown'`
encoding emits no body at all. -/
def frameTextInfoEncode (f : FrameTextInfo) : Except PyErr (List Nat) :=
  match latin1Encode f.id with
  | Except.error e => Except.error e
  | Except.ok idb =>
    match toBytesBE4 f.size with
    | Except.error e => Except.error e
    | Except.ok sb =>
      let body? : Except PyErr (List Nat) :=
        match f.encoding with
        | .iso8859_1 => (latin1Encode f.data).map (0 :: ·)
        | .utf_16 => (utf16Encode f.data).map (1 :: ·)
        | .unknown => Except.ok []
      match body? with
      | Except.error e => Except.error e
      | Except.ok body => Except.ok (idb ++ sb ++ f.flags ++ body)

/-- `FrameComments.encode`: header, then encoding byte, latin-1 language,
encoded description, terminator (one or two zero bytes) and encoded text;
an `'unknown'` encoding emits no body. -/
def frameCommentsEncode (f : FrameComments) : Except PyErr (List Nat) :=
  match latin1Encode f.id with
  | Except.error e => Except.error e
  | Except.ok idb =>
    match toBytesBE4 f.size with
    | Except.error e => Except.error e
    | Except.ok sb =>
      let body? : Except PyErr (List Nat) :=
        match f.encoding with
        | .iso8859_1 =>
          match latin1Encode f.language, latin1Encode f.content_descr,
              latin1Encode f.data with
          | Except.ok lb, Except.ok cb, Except.ok db =>
              Except.ok (0 :: (lb ++ cb ++ [0] ++ db))
          | Except.error e, _, _ => Except.error e
          | _, Except.error e, _ => Except.error e
          | _, _, Except.error e => Except.error e
        | .utf_16 =>
          match latin1Encode f.language, utf16Encode f.content_descr,
              utf16Encode f.data with
          | Except.ok lb, Except.ok cb, Except.ok db =>
              Except.ok (1 :: (lb ++ cb ++ [0, 0] ++ db))
          | Except.error e, _, _ => Except.error e
          | _, Except.error e, _ => Except.error e
          | _, _, Except.error e => Except.error e
        | .unknown => Except.ok []
      match body? with
      | Except.error e => Except.error e
      | Except.ok body => Except.ok (idb ++ sb ++ f.flags ++ body)

def Frame.encode : Frame → Except PyErr (List Nat)
  | .text f => frameTextInfoEncode f
  | .comm f => frameCommentsEncode f

/-- The flags byte `ID3V2Tag.encode` rebuilds from the three booleans. -/
def tagFlagsByte (t : Tag) : Nat :=
  (if t.unsynchronisation then 0x80 else 0) + (if t.extended_header then 0x40 else 0) +
    (if t.experimental_indicator then 0x20 else 0)

/-- The `for fr in self.frames.values(): new_raw_tag += fr.encode()` loop. -/
def framesEncode : List (List Nat × Frame) → Except PyErr (List Nat)
  | [] => Except.ok []
  | (_, fr) :: r =>
    match Frame.encode fr with
    | Except.error e => Except.error e
    | Except.ok b =>
      match framesEncode r with
      | Except.error e => Except.error e
      | Except.ok rest => Except.ok (b ++ rest)

/-- The `new_size += fr.size + 10` loop of `ID3V2Tag.encode`. -/
def sumFrameSizes (l : List (List Nat × Frame)) : Nat :=
  (l.map (fun p => p.2.size + 10)).sum

/-- `ID3V2Tag.encode`: the 10-byte header is emitted *first*, with the
tagsize the object holds on entry; only after the frames are appended is
`new_size` compared with it — growing updates `self.tagsize` (but not the
already-written header) and appends nothing, otherwise
`tagsize - new_size` zero bytes of padding are appended.  The updated
object is returned alongside the byte string. -/
def tagEncode (t : Tag) : Except PyErr (Tag × List Nat) :=
  let header := strCps "ID3" ++ t.version ++ [tagFlagsByte t] ++ encode_tagsize t.tagsize
  match framesEncode t.frames with
  | Except.error e => Except.error e
  | Except.ok fb =>
    let new_size := sumFrameSizes t.frames
    if new_size > t.tagsize then
      Except.ok ({ t with tagsize := new_size }, header ++ fb)
    else
      Except.ok (t, header ++ fb ++ List.replicate (t.tagsize - new_size) 0)

/-- `FrameTextInfo.set_value`: store the new text and recompute
`size = len(data.encode(encoding)) + 1`; `str.encode('unknown')` raises
`LookupError`. -/
def frameTextInfoSetValue (f : FrameTextInfo) (value : List Nat) :
    Except PyErr FrameTextInfo :=
  let enc? : Except PyErr (List Nat) :=
    match f.encoding with
    | .iso8859_1 => latin1Encode value
    | .utf_16 => utf16Encode value
    | .unknown => Except.error PyErr.lookupError
  match enc? with
  | Except.error e => Except.error e
  | Except.ok enc => Except.ok { f with data := value, size := enc.length + 1 }

/-- `FrameComments.set_value`: the body is `pass` — no field is touched. -/
def frameCommentsSetValue (f : FrameComments) (_value : List Nat) : FrameComments := f

/-! ## Helper lemmas -/

theorem slIdx_coe (x n : Nat) : slIdx (x : Int) n = min x n := by
  rw [slIdx, if_neg (by omega)]
  simp

/-- A Python slice with non-negative bounds is `take` then `drop`. -/
theorem pySlice_coe (l : List α) (a b : Nat) :
    pySlice l (a : Int) (b : Int) = (l.take b).drop a := by
  rw [pySlice, slIdx_coe, slIdx_coe]
  have h1 : l.take (min b l.length) = l.take b := by
    rcases Nat.le_total b l.length with h | h
    · rw [Nat.min_eq_left h]
    · rw [Nat.min_eq_right h, List.take_length, List.take_of_length_le h]
  rw [h1]
  rcases Nat.le_total a l.length with h | h
  · rw [Nat.min_eq_left h]
  · rw [Nat.min_eq_right h, List.drop_eq_nil_of_le, List.drop_eq_nil_of_le]
    · exact le_trans (List.length_take_le' b l) h
    · exact List.length_take_le' b l

theorem mask127 (x : Nat) : x &&& 0x7F = x % 128 := by
  have h := Nat.and_pow_two_sub_one_eq_mod x 7
  norm_num at h
  exact h

theorem pySlice_nonneg (l : List Nat) (a b : Int) (ha : 0 ≤ a) (hb : 0 ≤ b) :
    pySlice l a b = (l.take b.toNat).drop a.toNat := by
  have h := pySlice_coe l a.toNat b.toNat
  rw [Int.toNat_of_nonneg ha, Int.toNat_of_nonneg hb] at h
  exact h

theorem pySlice_6_10 (l : List Nat) : pySlice l 6 10 = (l.take 10).drop 6 := by
  rw [pySlice_nonneg _ _ _ (by norm_num) (by norm_num)]
  rfl

theorem strCps_ID3 : strCps "ID3" = [73, 68, 51] := by decide

theorem length_encode_tagsize (x : Nat) : (encode_tagsize x).length = 4 := rfl

/-! ## C6: synchsafe round trip -/

/-- **C6.** For every integer `x` with `0 ≤ x < 2^28`, decoding the 4-byte
synchsafe encoding of `x` yields `x` back:
`decode_tagsize (encode_tagsize x) = x`. -/
theorem decode_encode_tagsize (x : Nat) (h : x < 2 ^ 28) :
    decode_tagsize (encode_tagsize x) = x := by
  simp only [decode_tagsize, encode_tagsize, List.getD, List.get?, mask127,
    Nat.shiftRight_eq_div_pow]
  norm_num
  omega

/-- Witness for C6 at `x = 257` (the spec's own worked example `$00 00 02 01`). -/
theorem decode_encode_tagsize_witness : decode_tagsize (encode_tagsize 257) = 257 :=
  decode_encode_tagsize 257 (by norm_num)

/-! ## C7: the decoder does *not* mask bit 7 -/

/-- **C7, counterexample.** The claim says the decoded value is always
strictly less than `2^28` (bit 7 masked off).  On input `$80 00 00 00` the
source decodes `2^28`: the high bit is *not* masked. -/
theorem decode_tagsize_bit7_not_masked : ¬ decode_tagsize [128, 0, 0, 0] < 2 ^ 28 := by
  decide

/-- **C7, amended.** `decode_tagsize` accumulates the *full* byte values:
`decode [b0,b1,b2,b3] = b0·2^21 + b1·2^14 + b2·2^7 + b3`, with no `& 0x7F`
mask, so a set bit 7 contributes and can push the result to `2^28` or
beyond; when every byte has bit 7 clear the result is below `2^28`. -/
theorem decode_tagsize_full_bytes (b0 b1 b2 b3 : Nat) :
    decode_tagsize [b0, b1, b2, b3] = b0 * 2 ^ 21 + b1 * 2 ^ 14 + b2 * 2 ^ 7 + b3 ∧
      (b0 < 128 → b1 < 128 → b2 < 128 → b3 < 128 →
        decode_tagsize [b0, b1, b2, b3] < 2 ^ 28) := by
  constructor
  · simp only [decode_tagsize, List.getD, List.get?, Nat.shiftRight_eq_div_pow]
    norm_num
    omega
  · intro h0 h1 h2 h3
    simp only [decode_tagsize, List.getD, List.get?, Nat.shiftRight_eq_div_pow]
    norm_num
    omega

/-- Witness for C7's amended statement at the counterexample input. -/
theorem decode_tagsize_full_bytes_witness :
    decode_tagsize [128, 0, 0, 0] = 128 * 2 ^ 21 + 0 * 2 ^ 14 + 0 * 2 ^ 7 + 0 :=
  (decode_tagsize_full_bytes 128 0 0 0).1

/-! ## C5: a truncated frame header crashes `ID3V2Tag.read` -/

/-- A well-formed tag header declaring a 5-byte body of padding zeros: the
scan starts at offset 10 with only 5 bytes left, so `ID3V2FrameHeader.read`
returns `None`, which `ID3V2Frame.read` dereferences (`frame_header.frameid`). -/
def truncatedFrameTag : List Nat := [73, 68, 51, 3, 0, 0, 0, 0, 0, 5] ++ [0, 0, 0, 0, 0]

/-- **C5 (code bug).** The claim says `Tag.read` never raises once the tag
header checks pass: a failed frame read — a truncated frame header included —
is an end-of-frames signal and the tag read so far is returned.  The source's
`ID3V2FrameHeader.read` does return `None` for fewer than 10 bytes, but
`ID3V2Frame.read` immediately evaluates `frame_header.frameid` on it, so
`ID3V2Tag.read` raises `AttributeError` instead of returning the tag. -/
theorem tagRead_truncated_frame_header_raises :
    tagRead truncatedFrameTag = Except.error PyErr.attributeError := by
  decide

/-! ## C1: there is no Generic frame -/

/-- A complete frame whose id `"WXYZ"` neither starts with `'T'` nor equals
`"COMM"`: 10-byte header (size 3, zero flags) and a 3-byte body. -/
def genericFrameBytes : List Nat := strCps "WXYZ" ++ [0, 0, 0, 3] ++ [0, 0] ++ [1, 2, 3]

/-- A tag whose declared 13-byte body is exactly `genericFrameBytes`. -/
def genericTagBytes : List Nat := [73, 68, 51, 3, 0, 0] ++ encode_tagsize 13 ++ genericFrameBytes

/-- **C1, counterexample.**  The dispatcher yields *no* frame for the id
`"WXYZ"` (the generic branch of `ID3V2Frame.read` is commented out and
replaced by `frame = None`), and decoding a tag that contains such a frame
yields an empty frame mapping — the frame does not survive, so no
decode-then-encode round trip can re-emit it. -/
theorem generic_frame_dropped :
    frameRead genericFrameBytes = Except.ok none ∧
      tagRead genericTagBytes =
        Except.ok (some { version := [3, 0], tagsize := 13, unsynchronisation := false
                          extended_header := false, experimental_indicator := false
                          frames := [] }) := by
  decide

/-- **C1, amended.** For every frame whose parsed 4-character id does not
begin with `'T'` and is not exactly `"COMM"`, the dispatcher
`ID3V2Frame.read` yields no frame at all (`None`); such frames are dropped
(and stop the tag scan) rather than being preserved as Generic frames. -/
theorem frameRead_non_text_non_comm_none (bs : List Nat) (h : FrameHeader)
    (hh : frameHeaderRead bs = Except.ok (some h))
    (ht : h.frameid.getD 0 0 ≠ 84) (hc : h.frameid ≠ strCps "COMM") :
    frameRead bs = Except.ok none := by
  simp [frameRead, hh, hc]
  intro habs
  exact absurd (by simpa [List.getD] using habs) ht

/-- Witness for C1's amended statement at the `"WXYZ"` frame. -/
theorem frameRead_non_text_non_comm_none_witness :
    frameRead genericFrameBytes = Except.ok none :=
  frameRead_non_text_non_comm_none genericFrameBytes
    { frameid := strCps "WXYZ", framesize := 3, flags := [0, 0] }
    (by decide) (by decide) (by decide)

/-! ## C10: `FrameComments.set_value` is a no-op -/

/-- A sample text frame used to contrast the two `set_value` variants. -/
def sampleTextFrame : FrameTextInfo :=
  { id := strCps "TIT2", flags := [0, 0], size := 6, data := strCps "hello"
    encoding := .iso8859_1 }

/-- **C10.** `FrameComments.set_value` (body `pass`) leaves every field of
the frame unchanged, for every frame and every argument — unlike
`FrameTextInfo.set_value`, which stores the new text and recomputes the
size. -/
theorem frameCommentsSetValue_noop :
    (∀ (f : FrameComments) (v : List Nat), frameCommentsSetValue f v = f) ∧
      frameTextInfoSetValue sampleTextFrame (strCps "x") =
        Except.ok { sampleTextFrame with data := strCps "x", size := 2 } ∧
      sampleTextFrame.data ≠ strCps "x" := by
  refine ⟨fun f v => rfl, by decide, by decide⟩

/-! ## C9: at most one frame per frame id -/

theorem mem_dictInsert_fst {l : List (List Nat × Frame)} {k x : List Nat} {v : Frame}
    (h : x ∈ (dictInsert l k v).map Prod.fst) : x = k ∨ x ∈ l.map Prod.fst := by
  induction l with
  | nil => simpa [dictInsert] using h
  | cons p r ih =>
    obtain ⟨k0, v0⟩ := p
    by_cases hk : k0 = k
    · simp only [dictInsert, if_pos hk, List.map_cons, List.mem_cons] at h
      rcases h with h | h
      · exact Or.inl h
      · exact Or.inr (List.mem_cons_of_mem _ h)
    · simp only [dictInsert, if_neg hk, List.map_cons, List.mem_cons] at h
      rcases h with h | h
      · exact Or.inr (by simp [h])
      · rcases ih h with h' | h'
        · exact Or.inl h'
        · exact Or.inr (List.mem_cons_of_mem _ h')

theorem dictInsert_fst_nodup (l : List (List Nat × Frame)) (k : List Nat) (v : Frame)
    (h : (l.map Prod.fst).Nodup) : ((dictInsert l k v).map Prod.fst).Nodup := by
  induction l with
  | nil => simp [dictInsert]
  | cons p r ih =>
    obtain ⟨k0, v0⟩ := p
    simp only [List.map_cons, List.nodup_cons] at h
    by_cases hk : k0 = k
    · subst hk
      simpa [dictInsert, List.nodup_cons] using h
    · simp only [dictInsert, if_neg hk, List.map_cons, List.nodup_cons]
      refine ⟨fun hmem => ?_, ih h.2⟩
      rcases mem_dictInsert_fst hmem with h' | h'
      · exact hk h'
      · exact h.1 h'

theorem tagReadLoop_fst_nodup (tag : List Nat) (bound : Nat) :
    ∀ (fuel pos : Nat) (frames res : List (List Nat × Frame)),
      (frames.map Prod.fst).Nodup →
      tagReadLoop tag bound fuel pos frames = Except.ok res →
      (res.map Prod.fst).Nodup := by
  intro fuel
  induction fuel with
  | zero =>
    intro pos frames res h heq
    simp only [tagReadLoop] at heq
    injection heq with h2
    exact h2 ▸ h
  | succ n ih =>
    intro pos frames res h heq
    simp only [tagReadLoop] at heq
    by_cases hp : pos < bound
    · rw [if_pos hp] at heq
      cases hf : frameRead (pySlice tag pos tag.length) with
      | error e => rw [hf] at heq; cases heq
      | ok fr? =>
        rw [hf] at heq
        cases fr? with
        | some fr => exact ih _ _ _ (dictInsert_fst_nodup _ _ _ h) heq
        | none =>
          injection heq with h2
          exact h2 ▸ h
    · rw [if_neg hp] at heq
      injection heq with h2
      exact h2 ▸ h

theorem tagRead_fst_nodup (bs : List Nat) (t : Tag)
    (h : tagRead bs = Except.ok (some t)) : (t.frames.map Prod.fst).Nodup := by
  rw [tagRead] at h
  split at h
  · cases h
  · split at h
    · cases h
    · split at h
      · cases h
      · split at h
        · cases h
        · split at h
          · cases h
          · dsimp only [] at h
            split at h
            · cases h
            · split at h
              · cases h
              · rename_i frames heq
                injection h with h2
                injection h2 with h3
                have ht : t.frames = frames := by rw [← h3]
                rw [ht]
                exact tagReadLoop_fst_nodup _ _ _ _ _ _ (by simp) heq

/-- One `"TPE1"` frame with Latin-1 body `t` (size 3). -/
def tpe1Frame (t : List Nat) : List Nat := strCps "TPE1" ++ [0, 0, 0, 3] ++ [0, 0] ++ (0 :: t)

/-- A tag holding two `"TPE1"` frames in sequence: first text `"aa"`, then
text `"bb"`. -/
def dupTPE1Bytes : List Nat :=
  [73, 68, 51, 3, 0, 0] ++ encode_tagsize 26 ++ tpe1Frame [97, 97] ++ tpe1Frame [98, 98]

/-- **C9.** After every successful decode the frame mapping holds at most one
frame per frame id (its keys are pairwise distinct), and on a tag carrying
two `"TPE1"` frames in sequence the later frame overwrites the earlier: only
the second frame's text `"bb"` survives at that key. -/
theorem tagRead_one_frame_per_id :
    (∀ (bs : List Nat) (t : Tag), tagRead bs = Except.ok (some t) →
        (t.frames.map Prod.fst).Nodup) ∧
      tagRead dupTPE1Bytes =
        Except.ok (some { version := [3, 0], tagsize := 26, unsynchronisation := false
                          extended_header := false, experimental_indicator := false
                          frames := [(strCps "TPE1",
                            Frame.text { id := strCps "TPE1", flags := [0, 0], size := 3
                                         data := [98, 98], encoding := .iso8859_1 })] }) := by
  exact ⟨tagRead_fst_nodup, by decide⟩

/-! ## C2: `ID3V2Tag.encode` writes the header before updating the size -/

/-- The spec's padding-growth scenario: declared size 20, one frame whose
stored size 25 makes the frames total 35 bytes. -/
def paddingGrowthTag : Tag :=
  { version := [3, 0], tagsize := 20, unsynchronisation := false, extended_header := false
    experimental_indicator := false
    frames := [(strCps "TIT2",
      Frame.text { id := strCps "TIT2", flags := [0, 0], size := 25
                   data := strCps "abcdefghijklmnopqrstuvwx", encoding := .iso8859_1 })] }

/-- **C2, counterexample.**  On the spec's own scenario (declared size 20,
frames totalling 35 bytes) the size field of the emitted header decodes to
20, not 35: `encode` writes the header before it compares sizes, so the
update to `self.tagsize` never reaches the bytes being returned. -/
theorem tagEncode_emitted_header_not_updated :
    Except.map (fun p => decode_tagsize (pySlice p.2 6 10)) (tagEncode paddingGrowthTag) =
        Except.ok 20 ∧ (20 : Nat) ≠ 35 := by
  decide

/-- **C2, amended.**  `encode` computes `actual_size = Σ (frame.size + 10)`;
when `actual_size > declared_size` it updates the *object's* `tagsize` to
`actual_size` and appends no padding, and when `actual_size ≤ declared_size`
it appends exactly `declared_size − actual_size` zero bytes — but in both
cases the 10-byte header already emitted carries the synchsafe encoding of
the *pre-update* declared size, not of `actual_size`. -/
theorem tagEncode_header_uses_old_size (t t' : Tag) (out : List Nat)
    (hv : t.version.length = 2) (henc : tagEncode t = Except.ok (t', out)) :
    ∃ fb, framesEncode t.frames = Except.ok fb ∧
      out = strCps "ID3" ++ t.version ++ [tagFlagsByte t] ++ encode_tagsize t.tagsize ++
          fb ++ List.replicate (t.tagsize - sumFrameSizes t.frames) 0 ∧
      pySlice out 6 10 = encode_tagsize t.tagsize ∧
      t'.tagsize =
        (if sumFrameSizes t.frames > t.tagsize then sumFrameSizes t.frames else t.tagsize) := by
  rw [tagEncode] at henc
  dsimp only [] at henc
  cases hfb : framesEncode t.frames with
  | error e => rw [hfb] at henc; cases henc
  | ok fb =>
    rw [hfb] at henc
    dsimp only [] at henc
    refine ⟨fb, rfl, ?_⟩
    have hpe : ∀ rest : List Nat,
        pySlice (strCps "ID3" ++ t.version ++ [tagFlagsByte t] ++
            encode_tagsize t.tagsize ++ rest) 6 10 = encode_tagsize t.tagsize := by
      intro rest
      have hassoc : strCps "ID3" ++ t.version ++ [tagFlagsByte t] ++
            encode_tagsize t.tagsize ++ rest =
          ((strCps "ID3" ++ t.version ++ [tagFlagsByte t]) ++ encode_tagsize t.tagsize) ++ rest := by
        simp [List.append_assoc]
      rw [hassoc, pySlice_6_10]
      have h1 : ((((strCps "ID3" ++ t.version ++ [tagFlagsByte t]) ++
            encode_tagsize t.tagsize)) ++ rest).take 10 =
          (strCps "ID3" ++ t.version ++ [tagFlagsByte t]) ++ encode_tagsize t.tagsize :=
        List.take_left' (by simp [strCps_ID3, hv, length_encode_tagsize])
      rw [h1, List.drop_left' (by simp [strCps_ID3, hv])]
    by_cases hgrow : sumFrameSizes t.frames > t.tagsize
    · rw [if_pos hgrow] at henc
      injection henc with h2
      injection h2 with ht' hout
      subst hout
      refine ⟨?_, ?_, ?_⟩
      · rw [Nat.sub_eq_zero_of_le (Nat.le_of_lt hgrow)]
        simp [List.append_assoc]
      · exact hpe fb
      · rw [if_pos hgrow, ← ht']
    · rw [if_neg hgrow] at henc
      injection henc with h2
      injection h2 with ht' hout
      subst hout
      refine ⟨?_, ?_, ?_⟩
      · simp [List.append_assoc]
      · have hre : strCps "ID3" ++ t.version ++ [tagFlagsByte t] ++ encode_tagsize t.tagsize ++
            fb ++ List.replicate (t.tagsize - sumFrameSizes t.frames) 0 =
            strCps "ID3" ++ t.version ++ [tagFlagsByte t] ++ encode_tagsize t.tagsize ++
            (fb ++ List.replicate (t.tagsize - sumFrameSizes t.frames) 0) := by
          simp [List.append_assoc]
        rw [hre]
        exact hpe _
      · rw [if_neg hgrow, ← ht']

/-- An empty tag with declared size 2, for the C2 witness (padding branch:
two zero bytes are appended and the header keeps the declared size). -/
def emptyPadTag : Tag :=
  { version := [3, 0], tagsize := 2, unsynchronisation := false, extended_header := false
    experimental_indicator := false, frames := [] }

/-- Witness for C2's amended statement at a concrete tag. -/
theorem tagEncode_header_uses_old_size_witness :
    ∃ fb, framesEncode emptyPadTag.frames = Except.ok fb ∧
      [73, 68, 51, 3, 0, 0, 0, 0, 0, 2, 0, 0] =
        strCps "ID3" ++ emptyPadTag.version ++ [tagFlagsByte emptyPadTag] ++
          encode_tagsize emptyPadTag.tagsize ++ fb ++
          List.replicate (emptyPadTag.tagsize - sumFrameSizes emptyPadTag.frames) 0 ∧
      pySlice [73, 68, 51, 3, 0, 0, 0, 0, 0, 2, 0, 0] 6 10 =
        encode_tagsize emptyPadTag.tagsize ∧
      emptyPadTag.tagsize =
        (if sumFrameSizes emptyPadTag.frames > emptyPadTag.tagsize then
          sumFrameSizes emptyPadTag.frames else emptyPadTag.tagsize) :=
  tagEncode_header_uses_old_size emptyPadTag emptyPadTag
    [73, 68, 51, 3, 0, 0, 0, 0, 0, 2, 0, 0] (by decide) (by decide)

/-! ## C3: the comment-body split searches the whole body and never fails -/

theorem pyFind_cons_zero (l : List Nat) : pyFind (0 :: l) [0] = 0 := by
  simp [pyFind, pyFindAux, listStartsWith]

theorem pySlice_4_0 (l : List Nat) : pySlice l 4 0 = [] := by
  simp [pySlice, slIdx]

/-- A COMM frame body `\x00engd\x00t` (Latin-1, language "eng", descriptor
"d", terminator, text "t") behind its 10-byte header. -/
def commTermBytes : List Nat :=
  strCps "COMM" ++ [0, 0, 0, 7] ++ [0, 0] ++ ([0] ++ strCps "eng" ++ strCps "d" ++ [0] ++ strCps "t")

/-- A COMM frame body `\x00engd`: *no* terminator anywhere after the
language code. -/
def commNoTermBytes : List Nat :=
  strCps "COMM" ++ [0, 0, 0, 5] ++ [0, 0] ++ ([0] ++ strCps "eng" ++ strCps "d")

/-- **C3, counterexample.**  On the body `\x00engd\x00t` the claim's split
(after the encoding byte and language, at the first terminator) would give
`content_descr = "d"` and `text = "t"`; the source's `find` runs over the
whole body, hits the encoding byte itself (offset 0), and produces
`content_descr = ""` and `text = "engd\x00t"`.  On the body `\x00engd`,
which has no terminator after the language, the claim demands a
`MalformedComment` failure; the source still returns a frame (`find`
returns −1 and is fed into the slices). -/
theorem comment_read_counterexample :
    frameCommentsRead commTermBytes =
        Except.ok (some { id := strCps "COMM", flags := [0, 0], size := 7
                          data := [101, 110, 103, 100, 0, 116], language := strCps "eng"
                          content_descr := [], encoding := .iso8859_1 }) ∧
      ([] : List Nat) ≠ strCps "d" ∧
      [101, 110, 103, 100, 0, 116] ≠ strCps "t" ∧
      frameCommentsRead commNoTermBytes =
        Except.ok (some { id := strCps "COMM", flags := [0, 0], size := 5
                          data := [101, 110, 103, 100], language := strCps "eng"
                          content_descr := [], encoding := .iso8859_1 }) := by
  decide

/-- **C3, amended.**  `FrameComments.read` searches the *entire* frame body —
encoding byte and language included — for the terminator.  For a Latin-1
comment (encoding byte 0) the encoding byte itself is the first `0x00`, so
for every such COMM frame the read returns a frame with an *empty*
`content_descr` and with `text` equal to the whole body after the encoding
byte (language, descriptor, terminator and all), and it never fails with
`MalformedComment` — in particular a body with no terminator after the
language still yields a frame. -/
theorem frameCommentsRead_enc0 (bs : List Nat) (h : FrameHeader) (rest lang : List Nat)
    (hh : frameHeaderRead bs = Except.ok (some h))
    (hbody : pySlice bs 10 ((h.framesize : Int) + 10) = 0 :: rest)
    (hlang : utf8Decode (pySlice (0 :: rest) 1 4) = some lang) :
    frameCommentsRead bs =
      Except.ok (some { id := h.frameid, flags := h.flags, size := h.framesize
                        language := lang, content_descr := [], data := rest
                        encoding := .iso8859_1 }) := by
  rw [frameCommentsRead, hh]
  dsimp only []
  rw [hbody, hlang]
  dsimp only []
  rw [if_pos rfl]
  rw [pyFind_cons_zero]
  norm_num
  rw [pySlice_4_0]
  constructor
  · have hc : ((rest.length : Int) + 1) = (((rest.length + 1 : Nat)) : Int) := by
      push_cast
      ring
    rw [hc, pySlice_nonneg _ _ _ (by norm_num) (by positivity)]
    show latin1Decode (((0 :: rest).take (rest.length + 1)).drop 1) = rest
    rw [List.take_of_length_le (by simp)]
    rfl
  · rfl

/-- Witness for C3's amended statement at the terminator-free COMM frame. -/
theorem frameCommentsRead_enc0_witness :
    frameCommentsRead commNoTermBytes =
      Except.ok (some { id := strCps "COMM", flags := [0, 0], size := 5
                        language := [101, 110, 103], content_descr := []
                        data := [101, 110, 103, 100], encoding := .iso8859_1 }) :=
  frameCommentsRead_enc0 commNoTermBytes
    { frameid := strCps "COMM", framesize := 5, flags := [0, 0] }
    [101, 110, 103, 100] [101, 110, 103] (by decide) (by decide) (by decide)

/-! ## C4: only the Comment reader fails closed on an unknown encoding -/

/-- A `"TIT2"` frame whose body starts with encoding byte 2 and continues
with `"abc"`. -/
def unknownEncTextBytes : List Nat := strCps "TIT2" ++ [0, 0, 0, 4] ++ [0, 0] ++ [2, 97, 98, 99]

/-- A `"COMM"` frame whose body starts with encoding byte 2. -/
def unknownEncCommBytes : List Nat := strCps "COMM" ++ [0, 0, 0, 4] ++ [0, 0] ++ [2, 101, 110, 103]

/-- **C4, counterexample.**  The claim says a leading encoding byte other
than 0 or 1 makes the reader fail closed for TextInformation frames too.  It
does not: `FrameTextInfo.read` falls through to `frame_body.decode()`,
decodes the *whole* body (encoding byte included) as UTF-8 and returns a
frame with a decoded string value and `encoding = 'unknown'`. -/
theorem text_frame_unknown_encoding_decoded :
    frameTextInfoRead unknownEncTextBytes =
      Except.ok { id := strCps "TIT2", flags := [0, 0], size := 4
                  data := [2, 97, 98, 99], encoding := .unknown } := by
  decide

theorem frameCommentsRead_unknown_enc (bs : List Nat) (h : FrameHeader)
    (eb : Nat) (rest lang : List Nat)
    (hh : frameHeaderRead bs = Except.ok (some h))
    (hbody : pySlice bs 10 ((h.framesize : Int) + 10) = eb :: rest)
    (hlang : utf8Decode (pySlice (eb :: rest) 1 4) = some lang)
    (h0 : eb ≠ 0) (h1 : eb ≠ 1) :
    frameCommentsRead bs = Except.ok none := by
  rw [frameCommentsRead, hh]
  dsimp only []
  rw [hbody, hlang]
  dsimp only []
  rw [if_neg h0, if_neg h1]

theorem frameTextInfoRead_unknown_enc (bs : List Nat) (h : FrameHeader)
    (eb : Nat) (rest s : List Nat)
    (hh : frameHeaderRead bs = Except.ok (some h))
    (hbody : pySlice bs 10 (10 + (h.framesize : Int)) = eb :: rest)
    (h0 : eb ≠ 0) (h1 : eb ≠ 1)
    (hdec : utf8Decode (eb :: rest) = some s) :
    frameTextInfoRead bs =
      Except.ok { id := h.frameid, flags := h.flags, size := h.framesize
                  data := s, encoding := .unknown } := by
  rw [frameTextInfoRead, hh]
  dsimp only []
  rw [hbody]
  dsimp only []
  rw [if_neg h0, if_neg h1, hdec]

/-- **C4, amended.**  For a frame body whose leading encoding byte is
neither 0 nor 1: `FrameComments.read` fails closed (returns `None`, no frame
is produced), but `FrameTextInfo.read` does *not* — it decodes the whole
body (encoding byte included) as UTF-8 and returns a frame whose `data`
holds the resulting string and whose encoding is `'unknown'`. -/
theorem unknown_encoding_fails_closed_only_for_comments :
    (∀ (bs : List Nat) (h : FrameHeader) (eb : Nat) (rest lang : List Nat),
        frameHeaderRead bs = Except.ok (some h) →
        pySlice bs 10 ((h.framesize : Int) + 10) = eb :: rest →
        utf8Decode (pySlice (eb :: rest) 1 4) = some lang →
        eb ≠ 0 → eb ≠ 1 → frameCommentsRead bs = Except.ok none) ∧
      (∀ (bs : List Nat) (h : FrameHeader) (eb : Nat) (rest s : List Nat),
        frameHeaderRead bs = Except.ok (some h) →
        pySlice bs 10 (10 + (h.framesize : Int)) = eb :: rest →
        eb ≠ 0 → eb ≠ 1 → utf8Decode (eb :: rest) = some s →
        frameTextInfoRead bs =
          Except.ok { id := h.frameid, flags := h.flags, size := h.framesize
                      data := s, encoding := .unknown }) :=
  ⟨frameCommentsRead_unknown_enc, frameTextInfoRead_unknown_enc⟩

/-- Witness for C4's amended statement at concrete frames of each variant. -/
theorem unknown_encoding_fails_closed_only_for_comments_witness :
    frameCommentsRead unknownEncCommBytes = Except.ok none ∧
      frameTextInfoRead unknownEncTextBytes =
        Except.ok { id := strCps "TIT2", flags := [0, 0], size := 4
                    data := [2, 97, 98, 99], encoding := .unknown } :=
  ⟨unknown_encoding_fails_closed_only_for_comments.1 unknownEncCommBytes
      { frameid := strCps "COMM", framesize := 4, flags := [0, 0] } 2 [101, 110, 103]
      [101, 110, 103] (by decide) (by decide) (by decide) (by decide) (by decide),
    unknown_encoding_fails_closed_only_for_comments.2 unknownEncTextBytes
      { frameid := strCps "TIT2", framesize := 4, flags := [0, 0] } 2 [97, 98, 99]
      [2, 97, 98, 99] (by decide) (by decide) (by decide) (by decide) (by decide)⟩


/-! ## C8: text-frame round trip -/

theorem latin1Encode_all_lt (l : List Nat) (h : ∀ c ∈ l, c < 256) :
    latin1Encode l = Except.ok l := by
  rw [latin1Encode, if_pos]
  rw [List.all_eq_true]
  intro c hc
  simpa using h c hc

theorem toBytesBE4_spec (n : Nat) (h : n < 2 ^ 32) :
    ∃ sb, toBytesBE4 n = Except.ok sb ∧ sb.length = 4 ∧ beDecode4 sb = n := by
  refine ⟨[n / 2 ^ 24 % 256, n / 2 ^ 16 % 256, n / 2 ^ 8 % 256, n % 256],
    by rw [toBytesBE4, if_pos h], rfl, ?_⟩
  simp only [beDecode4, List.getD, List.get?]
  norm_num
  omega

theorem utf16Combine_cons_plain {u : Nat} (r : List Nat)
    (h1 : ¬(0xD800 ≤ u ∧ u < 0xDC00)) (h2 : ¬(0xDC00 ≤ u ∧ u < 0xE000)) :
    utf16Combine (u :: r) = (utf16Combine r).map (u :: ·) := by
  conv_lhs => rw [utf16Combine.eq_def]
  simp [h1, h2]

theorem utf16Combine_pair {u v : Nat} (r : List Nat)
    (h1 : 0xD800 ≤ u ∧ u < 0xDC00) (h2 : 0xDC00 ≤ v ∧ v < 0xE000) :
    utf16Combine (u :: v :: r) =
      (utf16Combine r).map ((0x10000 + (u - 0xD800) * 1024 + (v - 0xDC00)) :: ·) := by
  conv_lhs => rw [utf16Combine.eq_def]
  simp [h1, h2]



/-- Valid Unicode scalar values: below 0x110000 and not surrogates. -/
def ValidScalars (s : List Nat) : Prop :=
  ∀ c ∈ s, c < 0x110000 ∧ ¬(0xD800 ≤ c ∧ c < 0xE000)

theorem utf16_body_roundtrip (s : List Nat) (hv : ValidScalars s) :
    ∃ bs us, utf16EncodeBody s = Except.ok bs ∧ bs.length ≤ 4 * s.length ∧
      utf16Units bs = some us ∧ utf16Combine us = some s := by
  induction s with
  | nil => exact ⟨[], [], rfl, by simp, rfl, rfl⟩
  | cons c r ih =>
    obtain ⟨bs, us, hb, hlen, hu, hc⟩ := ih (fun x hx => hv x (List.mem_cons_of_mem _ hx))
    obtain ⟨hlt, hns⟩ := hv c (by simp)
    by_cases hbmp : c < 0x10000
    · refine ⟨[c % 256, c / 256] ++ bs, c :: us, ?_, ?_, ?_, ?_⟩
      · rw [utf16EncodeBody, hb]
        have hech : utf16EncodeChar c = Except.ok [c % 256, c / 256] := by
          rw [utf16EncodeChar]
          by_cases h1 : c < 0xD800
          · rw [if_pos h1]
          · rw [if_neg h1, if_neg (by omega), if_pos hbmp]
        rw [hech]
      · simp only [List.length_append, List.length_cons, List.length_nil]
        omega
      · show utf16Units (c % 256 :: c / 256 :: bs) = some (c :: us)
        rw [utf16Units, hu]
        have hcc : c % 256 + 256 * (c / 256) = c := by omega
        rw [hcc]
        rfl
      · rw [utf16Combine_cons_plain us (by omega) (by omega), hc]
        rfl
    · have hc1 : 0x10000 ≤ c := by omega
      set v := c - 0x10000 with hvdef
      set hi := 0xD800 + v / 1024 with hhidef
      set lo := 0xDC00 + v % 1024 with hlodef
      have hv1024 : v / 1024 ≤ 1023 := by
        have hvle : v ≤ 0xFFFFF := by omega
        omega
      have hmod : v % 1024 < 1024 := Nat.mod_lt _ (by norm_num)
      have hhirange : 0xD800 ≤ hi ∧ hi < 0xDC00 := by constructor <;> omega
      have hlorange : 0xDC00 ≤ lo ∧ lo < 0xE000 := by constructor <;> omega
      refine ⟨[hi % 256, hi / 256, lo % 256, lo / 256] ++ bs, hi :: lo :: us, ?_, ?_, ?_, ?_⟩
      · rw [utf16EncodeBody, hb]
        have hech : utf16EncodeChar c = Except.ok [hi % 256, hi / 256, lo % 256, lo / 256] := by
          rw [utf16EncodeChar]
          rw [if_neg (by omega), if_neg (by omega), if_neg (by omega), if_pos (by omega)]
        rw [hech]
      · simp only [List.length_append, List.length_cons, List.length_nil]
        omega
      · show utf16Units (hi % 256 :: hi / 256 :: lo % 256 :: lo / 256 :: bs) =
          some (hi :: lo :: us)
        rw [utf16Units, utf16Units, hu]
        have e1 : hi % 256 + 256 * (hi / 256) = hi := by omega
        have e2 : lo % 256 + 256 * (lo / 256) = lo := by omega
        rw [e1, e2]
        rfl
      · rw [utf16Combine_pair us hhirange hlorange, hc]
        have ec : 0x10000 + (hi - 0xD800) * 1024 + (lo - 0xDC00) = c := by omega
        rw [ec]
        rfl

theorem utf16Encode_decode (s : List Nat) (hv : ValidScalars s) :
    ∃ bs, utf16Encode s = Except.ok bs ∧ utf16Decode bs = some s ∧
      bs.length ≤ 4 * s.length + 2 := by
  obtain ⟨bs, us, hb, hlen, hu, hc⟩ := utf16_body_roundtrip s hv
  refine ⟨255 :: 254 :: bs, ?_, ?_, by simp only [List.length_cons]; omega⟩
  · rw [utf16Encode, hb]
    rfl
  · rw [utf16Decode]
    rw [if_pos ⟨rfl, rfl⟩, hu]
    simpa using hc



theorem pySlice_1_length (l : List Nat) : pySlice l 1 (l.length : Int) = l.drop 1 := by
  rw [pySlice_nonneg _ _ _ (by norm_num) (by positivity)]
  show (l.take l.length).drop 1 = l.drop 1
  rw [List.take_length]

theorem frameHeaderRead_append (fid sb fl rest : List Nat)
    (hid : fid.length = 4) (hsb : sb.length = 4) (hfl : fl.length = 2)
    (hdec : utf8Decode fid = some fid) :
    frameHeaderRead (fid ++ sb ++ fl ++ rest) =
      Except.ok (some { frameid := fid, framesize := beDecode4 sb, flags := fl }) := by
  have hlen3 : (fid ++ sb ++ fl).length = 10 := by simp [hid, hsb, hfl]
  have hbh : pySlice (fid ++ sb ++ fl ++ rest) 0 10 = fid ++ sb ++ fl := by
    rw [pySlice_nonneg _ _ _ (by norm_num) (by norm_num)]
    show ((fid ++ sb ++ fl ++ rest).take 10).drop 0 = fid ++ sb ++ fl
    rw [List.drop_zero, List.take_left' hlen3]
  have h04 : pySlice (fid ++ sb ++ fl) 0 4 = fid := by
    rw [pySlice_nonneg _ _ _ (by norm_num) (by norm_num)]
    show ((fid ++ sb ++ fl).take 4).drop 0 = fid
    rw [List.drop_zero, List.append_assoc, List.take_left' hid]
  have h48 : pySlice (fid ++ sb ++ fl) 4 8 = sb := by
    rw [pySlice_nonneg _ _ _ (by norm_num) (by norm_num)]
    show ((fid ++ sb ++ fl).take 8).drop 4 = sb
    rw [List.take_left' (by simp [hid, hsb]), List.drop_left' hid]
  have h810 : pySlice (fid ++ sb ++ fl) 8 10 = fl := by
    rw [pySlice_nonneg _ _ _ (by norm_num) (by norm_num)]
    show ((fid ++ sb ++ fl).take 10).drop 8 = fl
    rw [List.take_of_length_le (le_of_eq hlen3), List.drop_left' (by simp [hid, hsb])]
  rw [frameHeaderRead]
  rw [hbh, if_pos hlen3, h04, hdec, h48, h810]

theorem pySlice_body10 (pre body : List Nat) (k : Nat)
    (hpre : pre.length = 10) (hk : k = body.length) :
    pySlice (pre ++ body) 10 (10 + (k : Int)) = body := by
  have hcast : (10 : Int) + (k : Int) = ((10 + k : Nat) : Int) := by
    push_cast
    ring
  rw [hcast, pySlice_nonneg _ _ _ (by norm_num) (by positivity)]
  show ((pre ++ body).take (10 + k)).drop 10 = body
  rw [List.take_of_length_le (by simp [hpre, hk]), List.drop_left' hpre]

/-- **C8.** Setting a TextInformation frame's value to `s`, encoding the
frame, and reading the bytes back yields a TextInformation frame whose
decoded text is `s` again, both for Latin-1 (when `s` is representable in
ISO-8859-1) and for the 16-bit Unicode encoding (when `s` consists of
Unicode scalar values). -/
theorem text_frame_roundtrip (f : FrameTextInfo) (s : List Nat)
    (hid4 : f.id.length = 4) (hid8 : utf8Decode f.id = some f.id)
    (hid256 : ∀ c ∈ f.id, c < 256) (hfl : f.flags.length = 2)
    (hslen : s.length ≤ 2 ^ 29)
    (henc : f.encoding = .iso8859_1 ∧ (∀ c ∈ s, c < 256) ∨
            f.encoding = .utf_16 ∧ ValidScalars s) :
    ∃ f1 bs, frameTextInfoSetValue f s = Except.ok f1 ∧
      frameTextInfoEncode f1 = Except.ok bs ∧
      frameTextInfoRead bs =
        Except.ok { id := f.id, flags := f.flags, size := f1.size, data := s
                    encoding := f.encoding } := by
  have hidenc : latin1Encode f.id = Except.ok f.id := latin1Encode_all_lt _ hid256
  rcases henc with ⟨he, hs⟩ | ⟨he, hs⟩
  · -- Latin-1 round trip
    have hsenc : latin1Encode s = Except.ok s := latin1Encode_all_lt s hs
    obtain ⟨sb, hsb, hsbl, hsbd⟩ := toBytesBE4_spec (s.length + 1) (by omega)
    have hsv : frameTextInfoSetValue f s =
        Except.ok { f with data := s, size := s.length + 1 } := by
      rw [frameTextInfoSetValue, he]
      rw [hsenc]
    have hencdo : frameTextInfoEncode { f with data := s, size := s.length + 1 } =
        Except.ok (f.id ++ sb ++ f.flags ++ (0 :: s)) := by
      rw [frameTextInfoEncode]
      dsimp only []
      rw [hidenc]
      dsimp only []
      rw [hsb]
      dsimp only []
      rw [he]
      dsimp only []
      rw [hsenc]
      rfl
    have hh := frameHeaderRead_append f.id sb f.flags (0 :: s) hid4 hsbl hfl hid8
    rw [hsbd] at hh
    have hbody := pySlice_body10 ((f.id ++ sb) ++ f.flags) (0 :: s) (s.length + 1)
      (by simp [hid4, hsbl, hfl]) rfl
    have hread : frameTextInfoRead (f.id ++ sb ++ f.flags ++ (0 :: s)) =
        Except.ok { id := f.id, flags := f.flags, size := s.length + 1, data := s
                    encoding := .iso8859_1 } := by
      rw [frameTextInfoRead, hh]
      dsimp only []
      rw [hbody]
      dsimp only []
      rw [if_pos rfl, pySlice_1_length]
      rfl
    exact ⟨{ f with data := s, size := s.length + 1 },
      f.id ++ sb ++ f.flags ++ (0 :: s), hsv, hencdo, by rw [he]; exact hread⟩
  · -- 16-bit round trip
    obtain ⟨ebs, hebs, hdec16, hlen16⟩ := utf16Encode_decode s hs
    obtain ⟨sb, hsb, hsbl, hsbd⟩ := toBytesBE4_spec (ebs.length + 1) (by omega)
    have hsv : frameTextInfoSetValue f s =
        Except.ok { f with data := s, size := ebs.length + 1 } := by
      rw [frameTextInfoSetValue, he]
      rw [hebs]
    have hencdo : frameTextInfoEncode { f with data := s, size := ebs.length + 1 } =
        Except.ok (f.id ++ sb ++ f.flags ++ (1 :: ebs)) := by
      rw [frameTextInfoEncode]
      dsimp only []
      rw [hidenc]
      dsimp only []
      rw [hsb]
      dsimp only []
      rw [he]
      dsimp only []
      rw [hebs]
      rfl
    have hh := frameHeaderRead_append f.id sb f.flags (1 :: ebs) hid4 hsbl hfl hid8
    rw [hsbd] at hh
    have hbody := pySlice_body10 ((f.id ++ sb) ++ f.flags) (1 :: ebs) (ebs.length + 1)
      (by simp [hid4, hsbl, hfl]) rfl
    have hread : frameTextInfoRead (f.id ++ sb ++ f.flags ++ (1 :: ebs)) =
        Except.ok { id := f.id, flags := f.flags, size := ebs.length + 1, data := s
                    encoding := .utf_16 } := by
      rw [frameTextInfoRead, hh]
      dsimp only []
      rw [hbody]
      dsimp only []
      rw [if_neg (by norm_num), if_pos rfl, pySlice_1_length]
      have hd : (1 :: ebs).drop 1 = ebs := rfl
      rw [hd, hdec16]
    exact ⟨{ f with data := s, size := ebs.length + 1 },
      f.id ++ sb ++ f.flags ++ (1 :: ebs), hsv, hencdo, by rw [he]; exact hread⟩

/-- Witness for C8 at a concrete Latin-1 frame and the string `"Hi"`. -/
theorem text_frame_roundtrip_witness :
    ∃ f1 bs, frameTextInfoSetValue sampleTextFrame [72, 105] = Except.ok f1 ∧
      frameTextInfoEncode f1 = Except.ok bs ∧
      frameTextInfoRead bs =
        Except.ok { id := strCps "TIT2", flags := [0, 0], size := f1.size
                    data := [72, 105], encoding := PyEncoding.iso8859_1 } :=
  text_frame_roundtrip sampleTextFrame [72, 105] (by decide) (by decide) (by decide)
    (by decide) (by decide) (Or.inl ⟨rfl, by decide⟩)

end Mp3TagEdit
